import Mathlib

/-!
Verification of the stripe-sandbox server against its specification.

The development shallowly embeds the four source files:
* `webhook.js` — `handleWebhook`: signature verification followed by an
  event-type dispatch switch, wrapped in a try/catch;
* `payments.js` — `createPaymentIntent` and `getPaymentStatus`;
* `customers.js` — `createCustomer`;
* `server.js` / `test-scenarios.js` — routing and a manual test script,
  which carry no logic that the claims depend on.

Outbound calls to the payment processor are modelled as explicit function
arguments returning `Except` (success or a thrown error), so each handler is
a pure function from its request and the processor's behaviour to an
observable outcome: HTTP status, response body, the parameters sent to the
processor (or `none` when no call is made), and the list of log lines.
-/

namespace StripeSandbox

/-- Key-value maps (JS objects used as string maps, e.g. `metadata`). -/
abbrev Metadata := List (String × String)

/-- JS `s.startsWith(pre)`, embedded structurally so it evaluates in the kernel. -/
def jsStartsWith (s pre : String) : Bool := pre.data.isPrefixOf s.data

/-- JS spread-with-override `\x7b...m, k: v\x7d`: the resulting object maps `k` to `v`
and every other key to its value in `m`. -/
def spreadSet (m : Metadata) (k v : String) : Metadata :=
  (m.filter fun p => !(p.1 == k)) ++ [(k, v)]

theorem spreadSet_lookup_self (m : Metadata) (k v : String) :
    List.lookup k (spreadSet m k v) = some v := by
  induction m with
  | nil => simp [spreadSet, List.lookup]
  | cons p t ih =>
      rcases p with ⟨a, b⟩
      by_cases h : a = k
      · simpa [spreadSet, List.filter_cons, h] using ih
      · have hb : (a == k) = false := by simp [h]
        have hk : (k == a) = false := by simp [Ne.symm h]
        simpa [spreadSet, List.filter_cons, hb, List.lookup, hk] using ih

theorem spreadSet_lookup_ne (m : Metadata) (k v k' : String) (h : k' ≠ k) :
    List.lookup k' (spreadSet m k v) = List.lookup k' m := by
  have hkk : (k' == k) = false := by simp [h]
  induction m with
  | nil => simp [spreadSet, List.lookup, hkk]
  | cons p t ih =>
      rcases p with ⟨a, b⟩
      by_cases ha : a = k
      · have hk'a : (k' == a) = false := by simp [ha, h]
        simpa [spreadSet, List.filter_cons, ha, List.lookup, hk'a, hkk] using ih
      · have hb : (a == k) = false := by simp [ha]
        by_cases hka : k' = a
        · simp [spreadSet, List.filter_cons, hb, List.lookup, hka]
        · have h2 : (k' == a) = false := by simp [hka]
          simpa [spreadSet, List.filter_cons, hb, List.lookup, h2] using ih

/-! ## Webhook data model (`webhook.js`) -/

/-- The `last_payment_error` record carried by a failed PaymentIntent. -/
structure LastPaymentError where
  code : Option String := none
  decline_code : Option String := none
  message : Option String := none
  deriving DecidableEq, Repr

/-- Union of the fields of `event.data.object` that the dispatch branches read
(PaymentIntent, Customer or Dispute fields, depending on the event type). -/
structure EventObject where
  id : String := ""
  amount : ℚ := 0
  customer : Option String := none
  metadata : Metadata := []
  last_payment_error : Option LastPaymentError := none
  next_action_type : Option String := none
  email : String := ""
  reason : String := ""
  deriving DecidableEq, Repr

/-- `event.data`. -/
structure EventData where
  object : EventObject := {}
  deriving DecidableEq, Repr

/-- A webhook event as produced by `stripe.webhooks.constructEvent`. -/
structure WEvent where
  id : String := ""
  type : String := ""
  data : EventData := {}
  deriving DecidableEq, Repr

/-- A parsed `stripe-signature` header: embedded timestamp `t` and digest `v1`.
`none` stands for a missing or malformed header. -/
structure SigHeader where
  t : Int
  v1 : String
  deriving DecidableEq, Repr

/-- An inbound webhook call: raw body bytes plus the signature header. -/
structure WebhookRequest where
  body : String
  sig : Option SigHeader
  deriving DecidableEq, Repr

/-- The processor-default tolerance window for the embedded timestamp, in seconds. -/
def webhookTolerance : Int := 300

/-- The signed payload string `timestamp + "." + rawBody`. -/
def signedPayload (t : Int) (body : String) : String := toString t ++ "." ++ body

/-- Modelled from the spec: the routine `stripe.webhooks.constructEvent` is library
code, not part of this repository. Per the spec, the signature header encodes a
timestamp and an HMAC digest computed over `timestamp + "." + rawBody` with the
shared secret; verification fails on a missing/malformed header, on a digest
mismatch (which covers both a tampered body and a digest produced with a wrong
secret), or on a timestamp older than the tolerance window; otherwise the raw
body is parsed into the event object. The HMAC primitive and the JSON parse are
abstracted as the arguments `hmac` and `parse`. -/
def constructEvent (hmac : String → String → String) (parse : String → WEvent)
    (body : String) (sig : Option SigHeader) (secret : String) (now : Int) :
    Except String WEvent :=
  match sig with
  | none => Except.error "Unable to extract timestamp and signatures from header"
  | some h =>
      if h.v1 ≠ hmac secret (signedPayload h.t body) then
        Except.error "No signatures found matching the expected signature for payload"
      else if now - h.t > webhookTolerance then
        Except.error "Timestamp outside the tolerance zone"
      else
        Except.ok (parse body)

/-- The cases of the dispatch switch in `handleWebhook`. -/
inductive Branch
  | paymentIntentSucceeded
  | paymentIntentFailed
  | paymentIntentRequiresAction
  | customerCreated
  | chargeDisputeCreated
  | unhandled
  deriving DecidableEq, Repr

/-- Which case of the switch the event-type string selects. -/
def selectBranch (t : String) : Branch :=
  match t with
  | "payment_intent.succeeded" => Branch.paymentIntentSucceeded
  | "payment_intent.payment_failed" => Branch.paymentIntentFailed
  | "payment_intent.requires_action" => Branch.paymentIntentRequiresAction
  | "customer.created" => Branch.customerCreated
  | "charge.dispute.created" => Branch.chargeDisputeCreated
  | _ => Branch.unhandled

/-- Rendering of `JSON.stringify` on a metadata map (shape only). -/
def renderMeta (m : Metadata) : String :=
  "\x7b" ++ String.intercalate "," (m.map fun p => p.1 ++ ":" ++ p.2) ++ "\x7d"

/-- The `console.log` lines of each switch case (the branches' only side effect). -/
def branchLogs (b : Branch) (event : WEvent) : List String :=
  match b with
  | Branch.paymentIntentSucceeded =>
      let pi := event.data.object
      ["Payment succeeded!",
       "   Amount:   £" ++ toString (pi.amount / 100),
       "   PI ID:    " ++ pi.id,
       "   Customer: " ++ pi.customer.getD "guest",
       "   Metadata: " ++ renderMeta pi.metadata]
  | Branch.paymentIntentFailed =>
      let pi := event.data.object
      ["Payment failed!",
       "   PI ID:        " ++ pi.id,
       "   Error code:   " ++ (pi.last_payment_error.bind fun e => e.code).getD "undefined",
       "   Decline code: " ++ (pi.last_payment_error.bind fun e => e.decline_code).getD "undefined",
       "   Message:      " ++ (pi.last_payment_error.bind fun e => e.message).getD "undefined"]
  | Branch.paymentIntentRequiresAction =>
      let pi := event.data.object
      ["3DS Authentication required",
       "   PI ID:  " ++ pi.id,
       "   Action: " ++ pi.next_action_type.getD "undefined"]
  | Branch.customerCreated =>
      let c := event.data.object
      ["New customer created: " ++ c.id ++ " | " ++ c.email]
  | Branch.chargeDisputeCreated =>
      let d := event.data.object
      ["Dispute opened!",
       "   Dispute ID: " ++ d.id,
       "   Amount:     £" ++ toString (d.amount / 100),
       "   Reason:     " ++ d.reason]
  | Branch.unhandled =>
      ["Unhandled event type: " ++ event.type]

/-- The dispatch switch: exactly the branch selected by `event.type` runs. -/
def dispatchEvent (event : WEvent) : Branch × List String :=
  let b := selectBranch event.type
  (b, branchLogs b event)

/-- The switch as actually written never throws: it only logs. -/
def dispatchE (event : WEvent) : Except String (Branch × List String) :=
  Except.ok (dispatchEvent event)

/-- Running the dispatch switch twice on the same event, propagating a thrown
exception (used to state repetition safety). -/
def dispatchTwice (event : WEvent) :
    Except String ((Branch × List String) × (Branch × List String)) :=
  dispatchE event >>= fun r1 => dispatchE event >>= fun r2 => Except.ok (r1, r2)

/-- Response bodies `handleWebhook` can produce. -/
inductive RespBody
  | verifyError (error : String)
  | ack (received : Bool) (eventType : String) (eventId : String)
  | internalError (error : String)
  deriving DecidableEq, Repr

structure HttpResponse where
  status : Nat
  body : RespBody
  deriving DecidableEq, Repr

/-- Observable outcome of one webhook call: the HTTP response, the list of
dispatch branches that executed, and the log lines. -/
structure WebhookResult where
  response : HttpResponse
  branches : List Branch
  logs : List String
  deriving DecidableEq, Repr

/-- `handleWebhook`, generic in the dispatch step so that the try/catch around
the switch is visible: a thrown dispatch exception yields the 500 response. -/
def handleWebhookWith (dispatch : WEvent → Except String (Branch × List String))
    (hmac : String → String → String) (parse : String → WEvent)
    (secret : String) (now : Int) (req : WebhookRequest) : WebhookResult :=
  match constructEvent hmac parse req.body req.sig secret now with
  | Except.error msg =>
      { response := { status := 400, body := RespBody.verifyError ("Webhook Error: " ++ msg) },
        branches := [],
        logs := ["Webhook signature verification failed: " ++ msg] }
  | Except.ok event =>
      let rcvd := "Webhook received: " ++ event.type ++ " | ID: " ++ event.id
      match dispatch event with
      | Except.ok (b, ls) =>
          { response := { status := 200, body := RespBody.ack true event.type event.id },
            branches := [b],
            logs := rcvd :: ls }
      | Except.error m =>
          { response :=
              { status := 500,
                body := RespBody.internalError "Internal error processing webhook" },
            branches := [],
            logs := [rcvd, "Error processing webhook event: " ++ m] }

/-- `handleWebhook` as written: verification, then the (no-throw) switch, then
the 200 acknowledgment. -/
def handleWebhook (hmac : String → String → String) (parse : String → WEvent)
    (secret : String) (now : Int) (req : WebhookRequest) : WebhookResult :=
  handleWebhookWith dispatchE hmac parse secret now req

/-- Concrete stand-in HMAC used to instantiate witnesses. -/
def hmacDemo (secret msg : String) : String := "hmac(" ++ secret ++ "|" ++ msg ++ ")"

/-- Concrete stand-in JSON parse used to instantiate witnesses: the event type
is the raw body, so witnesses can pick any event type. -/
def parseDemo (body : String) : WEvent :=
  { id := "evt_demo", type := body, data := {} }

/-! ## Claims C1 - C5 (webhook handler) -/

/-- C1: on any verification failure — missing/malformed header, digest mismatch
(tampered body or wrong secret), or expired timestamp — `handleWebhook` responds
400 with the verification error body, no dispatch branch executes, and the only
log line is the verification-failure message: the payload is not processed. -/
theorem webhook_verification_failure_rejects
    (hmac : String → String → String) (parse : String → WEvent)
    (secret : String) (now : Int) (req : WebhookRequest)
    (hfail : req.sig = none ∨ ∃ h, req.sig = some h ∧
      (h.v1 ≠ hmac secret (signedPayload h.t req.body) ∨ now - h.t > webhookTolerance)) :
    ∃ msg, constructEvent hmac parse req.body req.sig secret now = Except.error msg ∧
      (handleWebhook hmac parse secret now req).response.status = 400 ∧
      (handleWebhook hmac parse secret now req).response.body
        = RespBody.verifyError ("Webhook Error: " ++ msg) ∧
      (handleWebhook hmac parse secret now req).branches = [] ∧
      (handleWebhook hmac parse secret now req).logs
        = ["Webhook signature verification failed: " ++ msg] := by
  have herr : ∃ msg,
      constructEvent hmac parse req.body req.sig secret now = Except.error msg := by
    rcases hfail with hnone | ⟨h, hsome, hbad⟩
    · exact ⟨"Unable to extract timestamp and signatures from header",
        by simp [constructEvent, hnone]⟩
    · by_cases hsig : h.v1 = hmac secret (signedPayload h.t req.body)
      · rcases hbad with h1 | h2
        · exact absurd hsig h1
        · exact ⟨"Timestamp outside the tolerance zone",
            by simp [constructEvent, hsome, hsig, h2]⟩
      · exact ⟨"No signatures found matching the expected signature for payload",
          by simp [constructEvent, hsome, hsig]⟩
  rcases herr with ⟨msg, hmsg⟩
  exact ⟨msg, hmsg, by simp [handleWebhook, handleWebhookWith, hmsg],
    by simp [handleWebhook, handleWebhookWith, hmsg],
    by simp [handleWebhook, handleWebhookWith, hmsg],
    by simp [handleWebhook, handleWebhookWith, hmsg]⟩

theorem webhook_verification_failure_rejects_witness :
    ∃ msg, constructEvent hmacDemo parseDemo "payload" none "whsec_demo" 0
        = Except.error msg ∧
      (handleWebhook hmacDemo parseDemo "whsec_demo" 0 ⟨"payload", none⟩).response.status = 400 ∧
      (handleWebhook hmacDemo parseDemo "whsec_demo" 0 ⟨"payload", none⟩).response.body
        = RespBody.verifyError ("Webhook Error: " ++ msg) ∧
      (handleWebhook hmacDemo parseDemo "whsec_demo" 0 ⟨"payload", none⟩).branches = [] ∧
      (handleWebhook hmacDemo parseDemo "whsec_demo" 0 ⟨"payload", none⟩).logs
        = ["Webhook signature verification failed: " ++ msg] :=
  webhook_verification_failure_rejects hmacDemo parseDemo "whsec_demo" 0
    ⟨"payload", none⟩ (Or.inl rfl)

/-- C2: a payload whose embedded timestamp is older than the tolerance window is
rejected even though its digest is exactly the HMAC of the signed payload under
the right secret: verification fails with the timestamp error, the handler
responds 400 and dispatches nothing. -/
theorem webhook_stale_timestamp_rejects
    (hmac : String → String → String) (parse : String → WEvent)
    (secret body : String) (t now : Int)
    (hstale : now - t > webhookTolerance) :
    constructEvent hmac parse body (some ⟨t, hmac secret (signedPayload t body)⟩) secret now
      = Except.error "Timestamp outside the tolerance zone" ∧
    (handleWebhook hmac parse secret now
        ⟨body, some ⟨t, hmac secret (signedPayload t body)⟩⟩).response.status = 400 ∧
    (handleWebhook hmac parse secret now
        ⟨body, some ⟨t, hmac secret (signedPayload t body)⟩⟩).branches = [] := by
  have hE : constructEvent hmac parse body
      (some ⟨t, hmac secret (signedPayload t body)⟩) secret now
      = Except.error "Timestamp outside the tolerance zone" := by
    simp [constructEvent, hstale]
  exact ⟨hE, by simp [handleWebhook, handleWebhookWith, hE],
    by simp [handleWebhook, handleWebhookWith, hE]⟩

theorem webhook_stale_timestamp_rejects_witness :
    constructEvent hmacDemo parseDemo "payload"
        (some ⟨0, hmacDemo "whsec_demo" (signedPayload 0 "payload")⟩) "whsec_demo" 301
      = Except.error "Timestamp outside the tolerance zone" ∧
    (handleWebhook hmacDemo parseDemo "whsec_demo" 301
        ⟨"payload", some ⟨0, hmacDemo "whsec_demo" (signedPayload 0 "payload")⟩⟩).response.status
      = 400 ∧
    (handleWebhook hmacDemo parseDemo "whsec_demo" 301
        ⟨"payload", some ⟨0, hmacDemo "whsec_demo" (signedPayload 0 "payload")⟩⟩).branches
      = [] :=
  webhook_stale_timestamp_rejects hmacDemo parseDemo "whsec_demo" "payload" 0 301 (by decide)

/-- C3: on a verified event exactly the branch selected by the event-type tag
executes (one branch per call), the response is the 200 acknowledgment — also
when the type matches none of the known kinds, in which case the selected branch
is `unhandled`, whose only effect is an informational log line. -/
theorem webhook_verified_dispatches_once
    (hmac : String → String → String) (parse : String → WEvent)
    (secret : String) (now : Int) (req : WebhookRequest) (event : WEvent)
    (hok : constructEvent hmac parse req.body req.sig secret now = Except.ok event) :
    (handleWebhook hmac parse secret now req).branches = [selectBranch event.type] ∧
    (handleWebhook hmac parse secret now req).branches.length = 1 ∧
    (handleWebhook hmac parse secret now req).response
      = { status := 200, body := RespBody.ack true event.type event.id } ∧
    (selectBranch event.type = Branch.unhandled →
      branchLogs Branch.unhandled event = ["Unhandled event type: " ++ event.type]) := by
  refine ⟨?_, ?_, ?_, fun _ => rfl⟩ <;>
    simp [handleWebhook, handleWebhookWith, hok, dispatchE, dispatchEvent]

theorem webhook_verified_dispatches_once_witness :
    (handleWebhook hmacDemo parseDemo "whsec_demo" 0
        ⟨"some.unknown.type",
         some ⟨0, hmacDemo "whsec_demo" (signedPayload 0 "some.unknown.type")⟩⟩).branches
      = [selectBranch (parseDemo "some.unknown.type").type] ∧
    (handleWebhook hmacDemo parseDemo "whsec_demo" 0
        ⟨"some.unknown.type",
         some ⟨0, hmacDemo "whsec_demo" (signedPayload 0 "some.unknown.type")⟩⟩).branches.length
      = 1 ∧
    (handleWebhook hmacDemo parseDemo "whsec_demo" 0
        ⟨"some.unknown.type",
         some ⟨0, hmacDemo "whsec_demo" (signedPayload 0 "some.unknown.type")⟩⟩).response
      = { status := 200,
          body := RespBody.ack true (parseDemo "some.unknown.type").type
            (parseDemo "some.unknown.type").id } ∧
    (selectBranch (parseDemo "some.unknown.type").type = Branch.unhandled →
      branchLogs Branch.unhandled (parseDemo "some.unknown.type")
        = ["Unhandled event type: " ++ (parseDemo "some.unknown.type").type]) :=
  webhook_verified_dispatches_once hmacDemo parseDemo "whsec_demo" 0
    ⟨"some.unknown.type",
     some ⟨0, hmacDemo "whsec_demo" (signedPayload 0 "some.unknown.type")⟩⟩
    (parseDemo "some.unknown.type") rfl

/-- C4: for a verified event, the handler responds 500 exactly when the dispatch
step throws; any non-throwing dispatch — whatever its logs, i.e. regardless of
business-level success — yields the 200 acknowledgment with body
`received: true, eventType, eventId`, and a throwing dispatch yields the fixed
500 internal-error body. -/
theorem webhook_ack_and_error_contract
    (dispatch : WEvent → Except String (Branch × List String))
    (hmac : String → String → String) (parse : String → WEvent)
    (secret : String) (now : Int) (req : WebhookRequest) (event : WEvent)
    (hok : constructEvent hmac parse req.body req.sig secret now = Except.ok event) :
    ((handleWebhookWith dispatch hmac parse secret now req).response.status = 500 ↔
      ∃ m, dispatch event = Except.error m) ∧
    (∀ r, dispatch event = Except.ok r →
      (handleWebhookWith dispatch hmac parse secret now req).response
        = { status := 200, body := RespBody.ack true event.type event.id }) ∧
    (∀ m, dispatch event = Except.error m →
      (handleWebhookWith dispatch hmac parse secret now req).response
        = { status := 500, body := RespBody.internalError "Internal error processing webhook" }) := by
  cases hd : dispatch event with
  | ok r =>
      obtain ⟨b, ls⟩ := r
      simp [handleWebhookWith, hok, hd]
  | error m =>
      simp [handleWebhookWith, hok, hd]

theorem webhook_ack_and_error_contract_witness :
    ((handleWebhookWith (fun _ => Except.error "boom") hmacDemo parseDemo "whsec_demo" 0
        ⟨"payment_intent.succeeded",
         some ⟨0, hmacDemo "whsec_demo" (signedPayload 0 "payment_intent.succeeded")⟩⟩).response.status
        = 500 ↔
      ∃ m, (fun _ : WEvent => Except.error (ε := String) (α := Branch × List String) "boom")
          (parseDemo "payment_intent.succeeded") = Except.error m) ∧
    (∀ r, (fun _ : WEvent => Except.error (ε := String) (α := Branch × List String) "boom")
          (parseDemo "payment_intent.succeeded") = Except.ok r →
      (handleWebhookWith (fun _ => Except.error "boom") hmacDemo parseDemo "whsec_demo" 0
        ⟨"payment_intent.succeeded",
         some ⟨0, hmacDemo "whsec_demo" (signedPayload 0 "payment_intent.succeeded")⟩⟩).response
        = { status := 200,
            body := RespBody.ack true (parseDemo "payment_intent.succeeded").type
              (parseDemo "payment_intent.succeeded").id }) ∧
    (∀ m, (fun _ : WEvent => Except.error (ε := String) (α := Branch × List String) "boom")
          (parseDemo "payment_intent.succeeded") = Except.error m →
      (handleWebhookWith (fun _ => Except.error "boom") hmacDemo parseDemo "whsec_demo" 0
        ⟨"payment_intent.succeeded",
         some ⟨0, hmacDemo "whsec_demo" (signedPayload 0 "payment_intent.succeeded")⟩⟩).response
        = { status := 500,
            body := RespBody.internalError "Internal error processing webhook" }) :=
  webhook_ack_and_error_contract (fun _ => Except.error "boom") hmacDemo parseDemo
    "whsec_demo" 0
    ⟨"payment_intent.succeeded",
     some ⟨0, hmacDemo "whsec_demo" (signedPayload 0 "payment_intent.succeeded")⟩⟩
    (parseDemo "payment_intent.succeeded") rfl

/-- C5: the dispatch switch is no-throw and holds no state: dispatching any
event succeeds with the branch and logs of `dispatchEvent`, and running the
switch a second time on the same event also succeeds and produces the identical
result, so the side-effect branches tolerate repetition. -/
theorem dispatch_repetition_safe (event : WEvent) :
    dispatchE event = Except.ok (dispatchEvent event) ∧
    dispatchTwice event = Except.ok (dispatchEvent event, dispatchEvent event) :=
  ⟨rfl, rfl⟩

/-! ## Payments data model (`payments.js`, `customers.js`) -/

/-- An error thrown by the processor client (`error.message`, `error.type`). -/
structure StripeError where
  message : String := ""
  type : String := ""
  deriving DecidableEq, Repr

/-- A PaymentIntent object as returned by the processor client. -/
structure PaymentIntentObj where
  id : String := ""
  client_secret : String := ""
  amount : ℚ := 0
  currency : String := ""
  status : String := ""
  customer : Option String := none
  metadata : Metadata := []
  created : Int := 0
  last_payment_error : Option LastPaymentError := none
  deriving DecidableEq, Repr

/-- Request body of `POST /create-payment-intent`; `none` marks an absent field.
The amount is a JS number, embedded as a rational. -/
structure PIntentBody where
  amount : Option ℚ := none
  currency : Option String := none
  customerId : Option String := none
  metadata : Option Metadata := none
  deriving DecidableEq, Repr

/-- The parameter object passed to `stripe.paymentIntents.create`. -/
structure PIntentParams where
  amount : ℚ
  currency : String
  automaticPaymentMethodsEnabled : Bool
  metadata : Metadata
  customer : Option String
  deriving DecidableEq, Repr

/-- Response bodies of `createPaymentIntent`. -/
inductive PIResponse
  | badRequest (error : String)
  | success (paymentIntentId clientSecret : String) (amount : ℚ) (currency status : String)
  | createError (error type : String)
  deriving DecidableEq, Repr

/-- Observable outcome of one `createPaymentIntent` call: HTTP status, response
body, the parameters sent to the processor (`none` when it was never contacted),
and the log lines. -/
structure PIOutcome where
  status : Nat
  resp : PIResponse
  sent : Option PIntentParams
  logs : List String
  deriving DecidableEq, Repr

/-- `createPaymentIntent` from `payments.js`. The JS guard `!amount || amount <= 0`
is the `none` case (absent amount; the falsy 0 also satisfies `amount <= 0`)
together with the `a ≤ 0` test. The processor call is the argument `create`;
`nowIso` is the value of `new Date().toISOString()`. -/
def createPaymentIntent (create : PIntentParams → Except StripeError PaymentIntentObj)
    (nowIso : String) (body : PIntentBody) : PIOutcome :=
  let currency := body.currency.getD "gbp"
  let metadata := body.metadata.getD []
  match body.amount with
  | none =>
      { status := 400,
        resp := PIResponse.badRequest "Amount must be a positive integer (in pence/cents)",
        sent := none, logs := [] }
  | some a =>
      if a ≤ 0 then
        { status := 400,
          resp := PIResponse.badRequest "Amount must be a positive integer (in pence/cents)",
          sent := none, logs := [] }
      else
        let params : PIntentParams :=
          { amount := a, currency := currency, automaticPaymentMethodsEnabled := true,
            metadata := spreadSet metadata "timestamp" nowIso,
            customer := body.customerId }
        match create params with
        | Except.ok pi =>
            { status := 200,
              resp := PIResponse.success pi.id pi.client_secret pi.amount pi.currency pi.status,
              sent := some params,
              logs := ["PaymentIntent created: " ++ pi.id ++ " | £" ++ toString (a / 100)
                ++ " " ++ currency.toUpper ++ " | status: " ++ pi.status] }
        | Except.error e =>
            { status := 400,
              resp := PIResponse.createError e.message e.type,
              sent := some params,
              logs := ["PaymentIntent creation failed: " ++ e.message] }

/-- The `lastError` sub-object of the `getPaymentStatus` response. -/
structure LastErrorView where
  code : Option String := none
  message : Option String := none
  declineCode : Option String := none
  deriving DecidableEq, Repr

/-- Response bodies of `getPaymentStatus`. -/
inductive PSResponse
  | err (error : String)
  | info (id status : String) (amount : ℚ) (currency : String) (customer : Option String)
      (metadata : Metadata) (created : String) (lastError : Option LastErrorView)
  deriving DecidableEq, Repr

/-- Observable outcome of one `getPaymentStatus` call; `retrieved` is the id sent
to `stripe.paymentIntents.retrieve` (`none` when no network call is made). -/
structure PSOutcome where
  status : Nat
  resp : PSResponse
  retrieved : Option String
  logs : List String
  deriving DecidableEq, Repr

/-- `getPaymentStatus` from `payments.js`. The JS guard `!id || !id.startsWith("pi_")`
is `id.isEmpty || !(jsStartsWith id "pi_")`; the retrieve call is the argument
`retrieve`, and `toIso` is `new Date(...).toISOString()`. -/
def getPaymentStatus (retrieve : String → Except StripeError PaymentIntentObj)
    (toIso : Int → String) (id : String) : PSOutcome :=
  if id.isEmpty || !(jsStartsWith id "pi_") then
    { status := 400, resp := PSResponse.err "Invalid PaymentIntent ID. Should start with pi_",
      retrieved := none, logs := [] }
  else
    match retrieve id with
    | Except.ok pi =>
        { status := 200,
          resp := PSResponse.info pi.id pi.status pi.amount pi.currency pi.customer pi.metadata
            (toIso (pi.created * 1000))
            (pi.last_payment_error.map fun e =>
              { code := e.code, message := e.message, declineCode := e.decline_code }),
          retrieved := some id, logs := [] }
    | Except.error e =>
        { status := 404, resp := PSResponse.err e.message, retrieved := some id,
          logs := ["Retrieve PaymentIntent failed: " ++ e.message] }

/-- Request body of `POST /create-customer`. -/
structure CustomerBody where
  email : Option String := none
  name : Option String := none
  phone : Option String := none
  metadata : Option Metadata := none
  deriving DecidableEq, Repr

/-- The parameter object passed to `stripe.customers.create`. -/
structure CustomerParams where
  email : String
  name : Option String
  phone : Option String
  metadata : Metadata
  deriving DecidableEq, Repr

/-- A Customer object as returned by the processor client. -/
structure CustomerObj where
  id : String := ""
  email : String := ""
  name : String := ""
  created : Int := 0
  deriving DecidableEq, Repr

/-- Response bodies of `createCustomer`. -/
inductive CustResponse
  | badRequest (error : String)
  | success (customerId email name created dashboardUrl : String)
  | createError (error type : String)
  deriving DecidableEq, Repr

/-- Observable outcome of one `createCustomer` call. -/
structure CustOutcome where
  status : Nat
  resp : CustResponse
  sent : Option CustomerParams
  logs : List String
  deriving DecidableEq, Repr

/-- `createCustomer` from `customers.js`. The JS guard `!email` treats an absent
email and the empty string as falsy. -/
def createCustomer (create : CustomerParams → Except StripeError CustomerObj)
    (nowIso : String) (toIso : Int → String) (body : CustomerBody) : CustOutcome :=
  let email := body.email.getD ""
  if email = "" then
    { status := 400, resp := CustResponse.badRequest "Email is required to create a Customer",
      sent := none, logs := [] }
  else
    let params : CustomerParams :=
      { email := email, name := body.name, phone := body.phone,
        metadata := spreadSet (body.metadata.getD []) "created_at" nowIso }
    match create params with
    | Except.ok c =>
        { status := 200,
          resp := CustResponse.success c.id c.email c.name (toIso (c.created * 1000))
            ("https://dashboard.stripe.com/test/customers/" ++ c.id),
          sent := some params,
          logs := ["Customer created: " ++ c.id ++ " | " ++ email] }
    | Except.error e =>
        { status := 400, resp := CustResponse.createError e.message e.type,
          sent := some params, logs := ["Customer creation failed: " ++ e.message] }

/-- Concrete stubs and sample data used to instantiate witnesses. -/
def stubCreatePI : PIntentParams → Except StripeError PaymentIntentObj :=
  fun _ => Except.ok {}

def stubCreateCustomer : CustomerParams → Except StripeError CustomerObj :=
  fun _ => Except.ok {}

def retrieveFailDemo : String → Except StripeError PaymentIntentObj :=
  fun _ => Except.error { message := "No such payment_intent: pi_404",
                          type := "invalid_request_error" }

def toIsoDemo : Int → String := fun _ => "2026-01-01T00:00:00.000Z"

def piDemo : PaymentIntentObj :=
  { id := "pi_demo", client_secret := "pi_demo_secret_abc", amount := 1,
    currency := "gbp", status := "requires_payment_method" }

/-- The rational 5/2 (a positive JS number that is not an integer). -/
def amount52 : ℚ := ⟨5, 2, by decide, by decide⟩

/-- Anything that reaches the processor from `createPaymentIntent` went through
the validation: the body carried `some a` with `¬ a ≤ 0`, and the parameters are
exactly the ones the handler builds. -/
theorem createPaymentIntent_sent_eq
    (create : PIntentParams → Except StripeError PaymentIntentObj)
    (nowIso : String) (body : PIntentBody) (p : PIntentParams)
    (hp : (createPaymentIntent create nowIso body).sent = some p) :
    ∃ a, body.amount = some a ∧ ¬ a ≤ 0 ∧
      p = { amount := a, currency := body.currency.getD "gbp",
            automaticPaymentMethodsEnabled := true,
            metadata := spreadSet (body.metadata.getD []) "timestamp" nowIso,
            customer := body.customerId } := by
  cases hA : body.amount with
  | none => simp [createPaymentIntent, hA] at hp
  | some a =>
      by_cases ha : a ≤ 0
      · simp [createPaymentIntent, hA, ha] at hp
      · refine ⟨a, rfl, ha, ?_⟩
        cases hc : create { amount := a,
                            currency := body.currency.getD "gbp",
                            automaticPaymentMethodsEnabled := true,
                            metadata := spreadSet (body.metadata.getD []) "timestamp" nowIso,
                            customer := body.customerId } with
        | ok pi =>
            simp [createPaymentIntent, hA, ha, hc] at hp
            exact hp.symm
        | error e =>
            simp [createPaymentIntent, hA, ha, hc] at hp
            exact hp.symm

/-- Anything that reaches the processor from `createCustomer` went through the
email validation, and the parameters are exactly the ones the handler builds. -/
theorem createCustomer_sent_eq
    (create : CustomerParams → Except StripeError CustomerObj)
    (nowIso : String) (toIso : Int → String) (body : CustomerBody) (q : CustomerParams)
    (hq : (createCustomer create nowIso toIso body).sent = some q) :
    ∃ e, body.email = some e ∧ e ≠ "" ∧
      q = { email := e, name := body.name, phone := body.phone,
            metadata := spreadSet (body.metadata.getD []) "created_at" nowIso } := by
  cases hE : body.email with
  | none => simp [createCustomer, hE] at hq
  | some e =>
      by_cases he : e = ""
      · simp [createCustomer, hE, he] at hq
      · refine ⟨e, rfl, he, ?_⟩
        cases hc : create { email := e,
                            name := body.name,
                            phone := body.phone,
                            metadata := spreadSet (body.metadata.getD []) "created_at" nowIso } with
        | ok c =>
            simp [createCustomer, hE, he, hc] at hq
            exact hq.symm
        | error err =>
            simp [createCustomer, hE, he, hc] at hq
            exact hq.symm

/-! ## Claims C6 - C10 (request handlers) -/

/-- C6 (amended): a missing, zero or negative amount is rejected with 400 and the
fixed error message, and the processor is never contacted; every request that does
reach the processor's create call carries a positive amount — but integrality is
not validated, so the amount need not be an integer (see the counterexample). -/
theorem create_payment_intent_amount_validation
    (create : PIntentParams → Except StripeError PaymentIntentObj)
    (nowIso : String) (body : PIntentBody) :
    ((body.amount = none ∨ ∃ a, body.amount = some a ∧ a ≤ 0) →
      (createPaymentIntent create nowIso body).status = 400 ∧
      (createPaymentIntent create nowIso body).resp
        = PIResponse.badRequest "Amount must be a positive integer (in pence/cents)" ∧
      (createPaymentIntent create nowIso body).sent = none) ∧
    (∀ p, (createPaymentIntent create nowIso body).sent = some p →
      ∃ a, body.amount = some a ∧ 0 < a ∧ p.amount = a) := by
  constructor
  · rintro (hA | ⟨a, hA, ha⟩)
    · simp [createPaymentIntent, hA]
    · simp [createPaymentIntent, hA, ha]
  · intro p hp
    obtain ⟨a, hA, ha, rfl⟩ := createPaymentIntent_sent_eq create nowIso body p hp
    exact ⟨a, hA, not_le.mp ha, rfl⟩

theorem create_payment_intent_amount_validation_witness :
    (createPaymentIntent stubCreatePI "2026-01-01T00:00:00.000Z" {}).status = 400 ∧
    (createPaymentIntent stubCreatePI "2026-01-01T00:00:00.000Z" {}).resp
      = PIResponse.badRequest "Amount must be a positive integer (in pence/cents)" ∧
    (createPaymentIntent stubCreatePI "2026-01-01T00:00:00.000Z" {}).sent = none :=
  (create_payment_intent_amount_validation stubCreatePI "2026-01-01T00:00:00.000Z" {}).1
    (Or.inl rfl)

/-- C6 counterexample: the amount 5/2 is positive but not an integer, yet it passes
the `!amount || amount <= 0` validation, the processor's create call is made, and
the handler answers 200 — refuting that only positive integer amounts reach the
create call. -/
theorem create_payment_intent_nonintegral_reaches_processor :
    0 < amount52 ∧ amount52.den ≠ 1 ∧
    ((createPaymentIntent stubCreatePI "2026-01-01T00:00:00.000Z"
        { amount := some amount52 }).sent).isSome = true ∧
    (createPaymentIntent stubCreatePI "2026-01-01T00:00:00.000Z"
        { amount := some amount52 }).status = 200 := by
  refine ⟨by decide, by decide, ?_, ?_⟩ <;>
    simp [createPaymentIntent, stubCreatePI, show ¬ (amount52 ≤ 0) by decide]

/-- C7: a status lookup whose id does not start with "pi_" is answered 400 with
the fixed `Invalid PaymentIntent ID` error body, and no retrieve call is made. -/
theorem payment_status_rejects_bad_id
    (retrieve : String → Except StripeError PaymentIntentObj) (toIso : Int → String)
    (id : String) (h : jsStartsWith id "pi_" = false) :
    (getPaymentStatus retrieve toIso id).status = 400 ∧
    (getPaymentStatus retrieve toIso id).resp
      = PSResponse.err "Invalid PaymentIntent ID. Should start with pi_" ∧
    (getPaymentStatus retrieve toIso id).retrieved = none := by
  simp [getPaymentStatus, h]

theorem payment_status_rejects_bad_id_witness :
    (getPaymentStatus retrieveFailDemo toIsoDemo "foo").status = 400 ∧
    (getPaymentStatus retrieveFailDemo toIsoDemo "foo").resp
      = PSResponse.err "Invalid PaymentIntent ID. Should start with pi_" ∧
    (getPaymentStatus retrieveFailDemo toIsoDemo "foo").retrieved = none :=
  payment_status_rejects_bad_id retrieveFailDemo toIsoDemo "foo" (by decide)

/-- C8: the confirmation token is returned in the response body but never logged:
the log lines of `createPaymentIntent` are unchanged under any substitution of the
created PaymentIntent's `client_secret` (they do not depend on the token), while a
successful creation's response carries exactly that `client_secret`. The system
holds no storage, so nothing is persisted. -/
theorem client_secret_only_in_response
    (nowIso : String) (body : PIntentBody) (pi : PaymentIntentObj) (s : String) :
    (createPaymentIntent (fun _ => Except.ok { pi with client_secret := s }) nowIso body).logs
      = (createPaymentIntent (fun _ => Except.ok pi) nowIso body).logs ∧
    (∀ a, body.amount = some a → 0 < a →
      (createPaymentIntent (fun _ => Except.ok pi) nowIso body).resp
        = PIResponse.success pi.id pi.client_secret pi.amount pi.currency pi.status) := by
  constructor
  · cases hA : body.amount with
    | none => simp [createPaymentIntent, hA]
    | some a =>
        by_cases ha : a ≤ 0
        · simp [createPaymentIntent, hA, ha]
        · simp [createPaymentIntent, hA, ha]
  · intro a hA hpos
    simp [createPaymentIntent, hA, not_le.mpr hpos]

theorem client_secret_only_in_response_witness :
    (createPaymentIntent (fun _ => Except.ok { piDemo with client_secret := "other" })
        "2026-01-01T00:00:00.000Z" { amount := some 1 }).logs
      = (createPaymentIntent (fun _ => Except.ok piDemo)
          "2026-01-01T00:00:00.000Z" { amount := some 1 }).logs ∧
    (createPaymentIntent (fun _ => Except.ok piDemo)
        "2026-01-01T00:00:00.000Z" { amount := some 1 }).resp
      = PIResponse.success piDemo.id piDemo.client_secret piDemo.amount piDemo.currency
          piDemo.status :=
  ⟨(client_secret_only_in_response "2026-01-01T00:00:00.000Z" { amount := some 1 }
      piDemo "other").1,
   (client_secret_only_in_response "2026-01-01T00:00:00.000Z" { amount := some 1 }
      piDemo "other").2 1 rfl (by decide)⟩

/-- C9: whenever the processor is contacted, the forwarded metadata carries the
server-generated entry — "timestamp" for `createPaymentIntent` and "created_at"
for `createCustomer` — replacing any caller-supplied value under that key, while
every other key maps to its caller-supplied value. -/
theorem metadata_server_keys_overwrite
    (createPI : PIntentParams → Except StripeError PaymentIntentObj)
    (createC : CustomerParams → Except StripeError CustomerObj)
    (nowIso : String) (toIso : Int → String)
    (piBody : PIntentBody) (cBody : CustomerBody) (p : PIntentParams) (q : CustomerParams)
    (hp : (createPaymentIntent createPI nowIso piBody).sent = some p)
    (hq : (createCustomer createC nowIso toIso cBody).sent = some q) :
    (List.lookup "timestamp" p.metadata = some nowIso ∧
      ∀ k, k ≠ "timestamp" →
        List.lookup k p.metadata = List.lookup k (piBody.metadata.getD [])) ∧
    (List.lookup "created_at" q.metadata = some nowIso ∧
      ∀ k, k ≠ "created_at" →
        List.lookup k q.metadata = List.lookup k (cBody.metadata.getD [])) := by
  obtain ⟨a, hA, ha, rfl⟩ := createPaymentIntent_sent_eq createPI nowIso piBody p hp
  obtain ⟨e, hE, he, rfl⟩ := createCustomer_sent_eq createC nowIso toIso cBody q hq
  refine ⟨⟨?_, ?_⟩, ?_, ?_⟩
  · exact spreadSet_lookup_self _ _ _
  · intro k hk
    exact spreadSet_lookup_ne _ _ _ _ hk
  · exact spreadSet_lookup_self _ _ _
  · intro k hk
    exact spreadSet_lookup_ne _ _ _ _ hk

theorem metadata_server_keys_overwrite_witness :
    (List.lookup "timestamp"
        (spreadSet [("order_id", "ORD-001"), ("timestamp", "caller-supplied")]
          "timestamp" "2026-01-01T00:00:00.000Z") = some "2026-01-01T00:00:00.000Z" ∧
      ∀ k, k ≠ "timestamp" →
        List.lookup k
            (spreadSet [("order_id", "ORD-001"), ("timestamp", "caller-supplied")]
              "timestamp" "2026-01-01T00:00:00.000Z")
          = List.lookup k
              ((some [("order_id", "ORD-001"), ("timestamp", "caller-supplied")]
                : Option Metadata).getD [])) ∧
    (List.lookup "created_at"
        (spreadSet [("internal_user_id", "USR-123"), ("created_at", "caller-supplied")]
          "created_at" "2026-01-01T00:00:00.000Z") = some "2026-01-01T00:00:00.000Z" ∧
      ∀ k, k ≠ "created_at" →
        List.lookup k
            (spreadSet [("internal_user_id", "USR-123"), ("created_at", "caller-supplied")]
              "created_at" "2026-01-01T00:00:00.000Z")
          = List.lookup k
              ((some [("internal_user_id", "USR-123"), ("created_at", "caller-supplied")]
                : Option Metadata).getD [])) := by
  have h := metadata_server_keys_overwrite stubCreatePI stubCreateCustomer
    "2026-01-01T00:00:00.000Z" toIsoDemo
    { amount := some 1,
      metadata := some [("order_id", "ORD-001"), ("timestamp", "caller-supplied")] }
    { email := some "user@example.com",
      metadata := some [("internal_user_id", "USR-123"), ("created_at", "caller-supplied")] }
    { amount := 1, currency := "gbp", automaticPaymentMethodsEnabled := true,
      metadata := spreadSet [("order_id", "ORD-001"), ("timestamp", "caller-supplied")]
        "timestamp" "2026-01-01T00:00:00.000Z",
      customer := none }
    { email := "user@example.com", name := none, phone := none,
      metadata := spreadSet [("internal_user_id", "USR-123"), ("created_at", "caller-supplied")]
        "created_at" "2026-01-01T00:00:00.000Z" }
    rfl rfl
  exact h

/-- C10: every failure of the retrieve call — whatever its message — is mapped to
a 404 response carrying the thrown error message, for any id that passes the
prefix check; the response is never 400 or 500 on that path. -/
theorem payment_status_retrieve_error_maps_404
    (retrieve : String → Except StripeError PaymentIntentObj) (toIso : Int → String)
    (id : String) (e : StripeError)
    (hid : (id.isEmpty || !(jsStartsWith id "pi_")) = false)
    (herr : retrieve id = Except.error e) :
    (getPaymentStatus retrieve toIso id).status = 404 ∧
    (getPaymentStatus retrieve toIso id).resp = PSResponse.err e.message ∧
    (getPaymentStatus retrieve toIso id).retrieved = some id ∧
    (getPaymentStatus retrieve toIso id).logs
      = ["Retrieve PaymentIntent failed: " ++ e.message] := by
  refine ⟨?_, ?_, ?_, ?_⟩ <;> simp [getPaymentStatus, hid, herr]

theorem payment_status_retrieve_error_maps_404_witness :
    (getPaymentStatus retrieveFailDemo toIsoDemo "pi_404").status = 404 ∧
    (getPaymentStatus retrieveFailDemo toIsoDemo "pi_404").resp
      = PSResponse.err (StripeError.mk "No such payment_intent: pi_404"
          "invalid_request_error").message ∧
    (getPaymentStatus retrieveFailDemo toIsoDemo "pi_404").retrieved = some "pi_404" ∧
    (getPaymentStatus retrieveFailDemo toIsoDemo "pi_404").logs
      = ["Retrieve PaymentIntent failed: "
          ++ (StripeError.mk "No such payment_intent: pi_404"
              "invalid_request_error").message] :=
  payment_status_retrieve_error_maps_404 retrieveFailDemo toIsoDemo "pi_404"
    (StripeError.mk "No such payment_intent: pi_404" "invalid_request_error")
    (by decide) rfl

end StripeSandbox
